import Mathlib

/-!
Verification of the namespace-backup mutating webhook (`ServerNamespaceBackup`
and the Velero orchestration helpers in `namespace-webhook/main.go`).

The embedding models:
- a namespace object as its name and label mapping (Go map lookups become
  association-list lookups returning the Go `(value, ok)` pair);
- the handler `ServerNamespaceBackup` as a function from a parsed admission
  request, the outcome of in-cluster config / dynamic-client construction,
  a backend state and the backup timestamp, to an HTTP-level result, the new
  backend state and the trace of resource-client calls issued;
- the external resource-client capability (spec section 6): `create` fails
  with already-exists when the identity is present, `delete` fails with
  not-found when it is absent; the orchestration helpers absorb these errors
  exactly as the Go functions do (they log and return, propagating nothing).
-/

namespace NamespaceWebhook

/-- A namespace object as decoded from the admission payload: its name and
label mapping. Mirrors the fields of `corev1.Namespace` that the handler
reads. -/
structure K8sNamespace where
  name : String
  labels : List (String × String)
deriving DecidableEq

/-- The zero-value `corev1.Namespace{}`: empty name, nil label map. Used by
the handler for the object it never decodes (e.g. the new object on Delete). -/
def zeroNamespace : K8sNamespace := ⟨"", []⟩

/-- Go map lookup `m[k]` in two-value form: returns `(value, ok)`, with the
zero value `""` when the key is absent (also the behaviour on a nil map). -/
def lookupLabel (labels : List (String × String)) (k : String) : String × Bool :=
  match labels.find? (fun p => p.1 == k) with
  | some p => (p.2, true)
  | none => ("", false)

/-- The target predicate shared by every branch of the orchestration switch:
`targetKey && targetName != "" && runtimeKey && runtime == "target"`
(main.go lines 290, 298, 302, 309). -/
def isTarget (labels : List (String × String)) : Bool :=
  let t := lookupLabel labels "namespace.oam.dev/target"
  let r := lookupLabel labels "usage.oam.dev/runtime"
  t.2 && t.1 != "" && r.2 && r.1 == "target"

/-- Schedule identity: `fmt.Sprintf("%s-%s-%s", projectName, targetName,
namespaceName)`, computed identically in `createVeleroSchedule`,
`createVeleroBackup` and `deleteVeleroSchedule`. -/
def scheduleNameOf (projectName targetName namespaceName : String) : String :=
  projectName ++ "-" ++ targetName ++ "-" ++ namespaceName

/-- Backup identity: `fmt.Sprintf("%s-%s", scheduleName, timestamp)` where the
timestamp is `time.Now().Format("20060102150405")`, passed here explicitly. -/
def backupNameOf (projectName targetName namespaceName timestamp : String) : String :=
  scheduleNameOf projectName targetName namespaceName ++ "-" ++ timestamp

/-- State of the external backup subsystem: the names of the persisted
schedule resources and backup resources in the `velero` namespace. -/
structure BackendState where
  schedules : List String
  backups : List String
deriving DecidableEq

/-- One call issued through the dynamic resource client. -/
inductive ClientCall where
  | getSchedule (name : String)
  | createSchedule (name : String)
  | createBackup (name : String)
  | deleteSchedule (name : String)
deriving DecidableEq

/-- Membership of a name in a backend resource list. -/
def containsName (l : List String) (x : String) : Bool :=
  l.any (fun y => y == x)

/-- Modelled from the spec, section 6: the resource-client `create` for the
schedule kind fails (already-exists) when the identity is present, otherwise
persists it. Returns the new state and whether an error occurred. -/
def clientCreateSchedule (s : BackendState) (name : String) : BackendState × Bool :=
  if containsName s.schedules name then (s, true)
  else ({ s with schedules := name :: s.schedules }, false)

/-- Modelled from the spec, section 6: the resource-client `create` for the
backup kind fails (already-exists) when the identity is present, otherwise
persists it. -/
def clientCreateBackup (s : BackendState) (name : String) : BackendState × Bool :=
  if containsName s.backups name then (s, true)
  else ({ s with backups := name :: s.backups }, false)

/-- Modelled from the spec, section 6: the resource-client `delete` for the
schedule kind fails (not-found) when the identity is absent, otherwise
removes it. -/
def clientDeleteSchedule (s : BackendState) (name : String) : BackendState × Bool :=
  if containsName s.schedules name then
    ({ s with schedules := s.schedules.filter (fun y => !(y == name)) }, false)
  else (s, true)

/-- Modelled from the spec, section 6: the resource-client `get` for the
schedule kind reports not-found when the identity is absent. No state change. -/
def clientGetSchedule (s : BackendState) (name : String) : Bool :=
  containsName s.schedules name

/-- `createVeleroSchedule` (main.go lines 332-373): computes the schedule
identity, issues a best-effort `Get` (error only logged), then issues the
`Create`; a create error (e.g. already-exists) is logged and absorbed — the
function has no error return, so nothing propagates to the caller. -/
def createVeleroSchedule (s : BackendState) (projectName targetName namespaceName cronExpression : String) :
    BackendState × List ClientCall :=
  let scheduleName := scheduleNameOf projectName targetName namespaceName
  let _getFound := clientGetSchedule s scheduleName
  let r := clientCreateSchedule s scheduleName
  let _cron := cronExpression
  (r.1, [ClientCall.getSchedule scheduleName, ClientCall.createSchedule scheduleName])

/-- `createVeleroBackup` (main.go lines 375-409): computes the backup
identity `<schedule-name>-<timestamp>` and issues the `Create`; an error is
logged and absorbed — the function has no error return. -/
def createVeleroBackup (s : BackendState) (projectName targetName namespaceName timestamp : String) :
    BackendState × List ClientCall :=
  let backupName := backupNameOf projectName targetName namespaceName timestamp
  let r := clientCreateBackup s backupName
  (r.1, [ClientCall.createBackup backupName])

/-- `deleteVeleroSchedule` (main.go lines 411-425): computes the schedule
identity and issues the `Delete`; an error (e.g. not-found) is logged and
absorbed — the function has no error return. -/
def deleteVeleroSchedule (s : BackendState) (projectName targetName namespaceName : String) :
    BackendState × List ClientCall :=
  let scheduleName := scheduleNameOf projectName targetName namespaceName
  let r := clientDeleteSchedule s scheduleName
  (r.1, [ClientCall.deleteSchedule scheduleName])

/-- The shared body of the two Activate branches of the orchestration switch
(main.go lines 290-294 and 298-301): `createVeleroSchedule` followed by
`createVeleroBackup` for the same project, target and namespace. -/
def activateBody (s : BackendState) (projectName targetName namespaceName timestamp : String) :
    BackendState × List ClientCall :=
  let r1 := createVeleroSchedule s projectName targetName namespaceName "@every 5m"
  let r2 := createVeleroBackup r1.1 projectName targetName namespaceName timestamp
  (r2.1, r1.2 ++ r2.2)

/-- A parsed admission request as `ServerNamespaceBackup` sees it after
`parseRequest` succeeds: the operation string, the request UID, and the
outcomes of `json.Unmarshal` on `Object.Raw` and `OldObject.Raw` (the
unmarshal itself is external JSON decoding, modelled by its result). -/
structure AdmissionRequest where
  operation : String
  uid : String
  objectDecode : Except String K8sNamespace
  oldObjectDecode : Except String K8sNamespace

/-- The HTTP-level outcome of one handler invocation. `noResponse` is the
bare `return` in the decode switch's default case, which writes nothing. -/
inductive HandlerResult where
  | badRequest (msg : String)
  | serverError (msg : String)
  | allowed (uid : String)
  | noResponse
deriving DecidableEq

/-- The decode switch of `ServerNamespaceBackup` (main.go lines 232-268):
Create decodes the new object, Update decodes the new then the old object,
Delete decodes the old object; any decode failure aborts with HTTP 400; an
unrecognized operation logs and returns without writing a response. Yields
the decoded `(namespace, oldNamespace)` pair on success, where the object a
branch does not decode stays the zero value. -/
def decodePhase (req : AdmissionRequest) : Except HandlerResult (K8sNamespace × K8sNamespace) :=
  if req.operation == "CREATE" then
    match req.objectDecode with
    | Except.error e => Except.error (HandlerResult.badRequest ("Could not parse namespace: " ++ e))
    | Except.ok ns => Except.ok (ns, zeroNamespace)
  else if req.operation == "UPDATE" then
    match req.objectDecode with
    | Except.error e => Except.error (HandlerResult.badRequest ("Could not parse namespace: " ++ e))
    | Except.ok ns =>
      match req.oldObjectDecode with
      | Except.error e => Except.error (HandlerResult.badRequest ("Could not parse old namespace: " ++ e))
      | Except.ok oldNs => Except.ok (ns, oldNs)
  else if req.operation == "DELETE" then
    match req.oldObjectDecode with
    | Except.error e => Except.error (HandlerResult.badRequest ("Could not parse old namespace: " ++ e))
    | Except.ok oldNs => Except.ok (zeroNamespace, oldNs)
  else
    Except.error HandlerResult.noResponse

/-- Which decodes are mandatory for the request, per the decode switch:
the new object for Create and Update, the old object for Update and Delete. -/
def mandatoryDecodesOk (req : AdmissionRequest) : Bool :=
  if req.operation == "CREATE" then req.objectDecode.toBool
  else if req.operation == "UPDATE" then req.objectDecode.toBool && req.oldObjectDecode.toBool
  else if req.operation == "DELETE" then req.oldObjectDecode.toBool
  else true

/-- The orchestration switch of `ServerNamespaceBackup` (main.go lines
284-312), given the decoded namespace pair: evaluates the label conditions
and runs the Activate / Deactivate bodies. Returns the new backend state and
the trace of client calls. -/
def orchestrate (operation : String) (ns oldNs : K8sNamespace) (s : BackendState) (timestamp : String) :
    BackendState × List ClientCall :=
  let t := lookupLabel ns.labels "namespace.oam.dev/target"
  let r := lookupLabel ns.labels "usage.oam.dev/runtime"
  let targetName := t.1
  let targetKey := t.2
  let runtime := r.1
  let runtimeKey := r.2
  let projectName := "test-project"
  if operation == "CREATE" then
    if targetKey && targetName != "" && runtimeKey && runtime == "target" then
      activateBody s projectName targetName ns.name timestamp
    else (s, [])
  else if operation == "UPDATE" then
    let ot := lookupLabel oldNs.labels "namespace.oam.dev/target"
    let oru := lookupLabel oldNs.labels "usage.oam.dev/runtime"
    let oldTargetName := ot.1
    let oldTargetKey := ot.2
    let oldRuntime := oru.1
    let oldRuntimeKey := oru.2
    if targetKey && targetName != "" && runtimeKey && runtime == "target" &&
        (!oldTargetKey || oldTargetName == "" || !oldRuntimeKey || oldRuntime == "") then
      activateBody s projectName targetName ns.name timestamp
    else if (!targetKey || targetName == "" || !runtimeKey || runtime != "target") &&
        oldTargetKey && oldTargetName != "" && oldRuntimeKey && oldRuntime == "target" then
      deleteVeleroSchedule s projectName oldTargetName ns.name
    else (s, [])
  else if operation == "DELETE" then
    let ot := lookupLabel oldNs.labels "namespace.oam.dev/target"
    let oru := lookupLabel oldNs.labels "usage.oam.dev/runtime"
    let oldTargetName := ot.1
    let oldTargetKey := ot.2
    let oldRuntime := oru.1
    let oldRuntimeKey := oru.2
    if oldTargetKey && oldTargetName != "" && oldRuntimeKey && oldRuntime == "target" then
      deleteVeleroSchedule s projectName oldTargetName ns.name
    else (s, [])
  else (s, [])

/-- `ServerNamespaceBackup` (main.go lines 222-330) after `parseRequest`:
runs the decode switch, then constructs the in-cluster config and the
dynamic client (HTTP 500 on failure, before any label is read), then runs
the orchestration switch, and finally writes the admission response
`allowed=true` echoing the request UID. `clusterConfigOk` and `clientOk` are
the outcomes of `rest.InClusterConfig` and `dynamic.NewForConfig`. -/
def ServerNamespaceBackup (req : AdmissionRequest) (clusterConfigOk clientOk : Bool)
    (s : BackendState) (timestamp : String) :
    HandlerResult × BackendState × List ClientCall :=
  match decodePhase req with
  | Except.error r => (r, s, [])
  | Except.ok nss =>
    if !clusterConfigOk then
      (HandlerResult.serverError "Could not get in-cluster config", s, [])
    else if !clientOk then
      (HandlerResult.serverError "Could not create clientset", s, [])
    else
      let r := orchestrate req.operation nss.1 nss.2 s timestamp
      (HandlerResult.allowed req.uid, r.1, r.2)

/-- Transition intents of spec section 4.2. -/
inductive TransitionIntent where
  | Activate
  | Deactivate
  | NoOp
deriving DecidableEq

/-- The transition intent implied by the orchestration switch: Activate when
it runs the schedule-and-backup creation body, Deactivate when it runs the
schedule deletion, NoOp when it issues no resource call (which is also what
happens for an unrecognized operation, where the handler returns before the
switch). Branch conditions are copied from main.go lines 288-312. -/
def handlerIntent (operation : String) (oldLabels newLabels : List (String × String)) :
    TransitionIntent :=
  let t := lookupLabel newLabels "namespace.oam.dev/target"
  let r := lookupLabel newLabels "usage.oam.dev/runtime"
  let targetName := t.1
  let targetKey := t.2
  let runtime := r.1
  let runtimeKey := r.2
  if operation == "CREATE" then
    if targetKey && targetName != "" && runtimeKey && runtime == "target" then
      TransitionIntent.Activate
    else TransitionIntent.NoOp
  else if operation == "UPDATE" then
    let ot := lookupLabel oldLabels "namespace.oam.dev/target"
    let oru := lookupLabel oldLabels "usage.oam.dev/runtime"
    let oldTargetName := ot.1
    let oldTargetKey := ot.2
    let oldRuntime := oru.1
    let oldRuntimeKey := oru.2
    if targetKey && targetName != "" && runtimeKey && runtime == "target" &&
        (!oldTargetKey || oldTargetName == "" || !oldRuntimeKey || oldRuntime == "") then
      TransitionIntent.Activate
    else if (!targetKey || targetName == "" || !runtimeKey || runtime != "target") &&
        oldTargetKey && oldTargetName != "" && oldRuntimeKey && oldRuntime == "target" then
      TransitionIntent.Deactivate
    else TransitionIntent.NoOp
  else if operation == "DELETE" then
    let ot := lookupLabel oldLabels "namespace.oam.dev/target"
    let oru := lookupLabel oldLabels "usage.oam.dev/runtime"
    if ot.2 && ot.1 != "" && oru.2 && oru.1 == "target" then
      TransitionIntent.Deactivate
    else TransitionIntent.NoOp
  else TransitionIntent.NoOp

/-- The transition table of spec section 4.2, written from the spec's words:
a pure function of the operation and the two predicate values. -/
def decideSpec (operation : String) (oldIsTarget newIsTarget : Bool) : TransitionIntent :=
  if operation == "CREATE" then
    if newIsTarget then TransitionIntent.Activate else TransitionIntent.NoOp
  else if operation == "UPDATE" then
    if !oldIsTarget && newIsTarget then TransitionIntent.Activate
    else if oldIsTarget && !newIsTarget then TransitionIntent.Deactivate
    else TransitionIntent.NoOp
  else if operation == "DELETE" then
    if oldIsTarget then TransitionIntent.Deactivate else TransitionIntent.NoOp
  else TransitionIntent.NoOp

/-- The condition the Update branch actually requires of the old labels
before activating: target label absent or empty, or runtime label absent or
empty (main.go line 298). -/
def oldLabelsFalsy (oldLabels : List (String × String)) : Bool :=
  let ot := lookupLabel oldLabels "namespace.oam.dev/target"
  let oru := lookupLabel oldLabels "usage.oam.dev/runtime"
  !ot.2 || ot.1 == "" || !oru.2 || oru.1 == ""

/-! Helper lemmas. -/

theorem string_append_cancel_left (a b c : String) (h : a ++ b = a ++ c) : b = c := by
  have h2 := congrArg String.data h
  simp only [String.data_append] at h2
  exact String.ext (List.append_cancel_left h2)

theorem containsName_filter_self (l : List String) (x : String) :
    containsName (l.filter (fun y => !(y == x))) x = false := by
  simp only [containsName]
  rw [List.any_eq_false]
  intro y hy
  have hmem := List.mem_filter.mp hy
  simp only [Bool.not_eq_true'] at hmem
  simp [hmem.2]

theorem deleteVeleroSchedule_removes (s : BackendState) (p t n : String) :
    containsName ((deleteVeleroSchedule s p t n).1).schedules (scheduleNameOf p t n) = false := by
  unfold deleteVeleroSchedule clientDeleteSchedule
  by_cases h : containsName s.schedules (scheduleNameOf p t n)
  · simp [h, containsName_filter_self]
  · simp [h]

/-- C2: the target predicate is true iff the label `namespace.oam.dev/target`
is present with a non-empty value and the label `usage.oam.dev/runtime` is
present with value exactly `"target"`; absence of either label or an empty
target value yields false; comparison is exact and case-sensitive, so a
whitespace-only target value counts as non-empty. -/
theorem C2_target_predicate (labels : List (String × String)) :
    (isTarget labels = true ↔
      ((∃ v, (labels.find? (fun p => p.1 == "namespace.oam.dev/target")).map Prod.snd = some v ∧
          v ≠ "") ∧
        (labels.find? (fun p => p.1 == "usage.oam.dev/runtime")).map Prod.snd = some "target")) ∧
    isTarget [("namespace.oam.dev/target", " "), ("usage.oam.dev/runtime", "target")] = true := by
  constructor
  · unfold isTarget lookupLabel
    rcases ht : labels.find? (fun p => p.1 == "namespace.oam.dev/target") with _ | p <;>
      rcases hr : labels.find? (fun p => p.1 == "usage.oam.dev/runtime") with _ | q <;>
        simp [ht, hr, bne_iff_ne, beq_iff_eq]
  · decide

/-- C8: a Deactivate issues exactly one external mutation, the delete of the
schedule resource with the derived identity; it never touches any backup
resource, whose state is unchanged. -/
theorem C8_deactivate_frame (s : BackendState) (p t n : String) :
    (deleteVeleroSchedule s p t n).2 = [ClientCall.deleteSchedule (scheduleNameOf p t n)] ∧
    ((deleteVeleroSchedule s p t n).1).backups = s.backups := by
  unfold deleteVeleroSchedule clientDeleteSchedule
  by_cases h : containsName s.schedules (scheduleNameOf p t n) <;> simp [h]

/-- C5: deleting the schedule twice for the same namespace name leaves the
schedule absent after both calls; the second delete hits not-found at the
backend (the client reports an error) and the state is unchanged, with the
error absorbed rather than propagated. -/
theorem C5_deactivate_idempotent (s0 : BackendState) (p t n : String) :
    containsName
        ((deleteVeleroSchedule (deleteVeleroSchedule s0 p t n).1 p t n).1).schedules
        (scheduleNameOf p t n) = false ∧
    (clientDeleteSchedule (deleteVeleroSchedule s0 p t n).1 (scheduleNameOf p t n)).2 = true ∧
    (deleteVeleroSchedule (deleteVeleroSchedule s0 p t n).1 p t n).1 =
      (deleteVeleroSchedule s0 p t n).1 := by
  refine ⟨deleteVeleroSchedule_removes _ p t n, ?_, ?_⟩
  · unfold clientDeleteSchedule
    simp [deleteVeleroSchedule_removes s0 p t n]
  · generalize hgen : (deleteVeleroSchedule s0 p t n).1 = s1
    have h1 : containsName s1.schedules (scheduleNameOf p t n) = false := by
      rw [← hgen]
      exact deleteVeleroSchedule_removes s0 p t n
    unfold deleteVeleroSchedule clientDeleteSchedule
    simp [h1]

/-- C3 counterexample: the schedule identity is not a function of the
namespace name alone — the same namespace with different target label values
yields different identities, distinct namespace names can yield the same
identity, and the identity is not of the form `<namespace>-backup`. -/
theorem C3_counterexample :
    scheduleNameOf "test-project" "a" "n" ≠ scheduleNameOf "test-project" "b" "n" ∧
    scheduleNameOf "test-project" "a" "b-c" = scheduleNameOf "test-project" "a-b" "c" ∧
    ("b-c" : String) ≠ "c" ∧
    scheduleNameOf "test-project" "a" "n" ≠ "n" ++ "-backup" := by decide

/-- C3 amended: the schedule identity is
`<project>-<targetLabelValue>-<namespaceName>`; the create and the delete
paths derive it with the same function, so repeated derivations from the
same project, target value and namespace name agree, and for a fixed project
and target value distinct namespace names give distinct identities. -/
theorem C3_schedule_naming (s s' : BackendState) (p t n n' c : String) (h : n ≠ n') :
    (createVeleroSchedule s p t n c).2 =
      [ClientCall.getSchedule (scheduleNameOf p t n),
        ClientCall.createSchedule (scheduleNameOf p t n)] ∧
    (deleteVeleroSchedule s' p t n).2 = [ClientCall.deleteSchedule (scheduleNameOf p t n)] ∧
    scheduleNameOf p t n ≠ scheduleNameOf p t n' := by
  refine ⟨rfl, rfl, fun heq => h ?_⟩
  exact string_append_cancel_left (p ++ "-" ++ t ++ "-") n n' (by
    simpa [scheduleNameOf, String.append_assoc] using heq)

/-- C3 witness. -/
theorem C3_schedule_naming_witness :
    (createVeleroSchedule ⟨[], []⟩ "test-project" "acme" "ns1" "@every 5m").2 =
      [ClientCall.getSchedule (scheduleNameOf "test-project" "acme" "ns1"),
        ClientCall.createSchedule (scheduleNameOf "test-project" "acme" "ns1")] ∧
    (deleteVeleroSchedule ⟨["x"], []⟩ "test-project" "acme" "ns1").2 =
      [ClientCall.deleteSchedule (scheduleNameOf "test-project" "acme" "ns1")] ∧
    scheduleNameOf "test-project" "acme" "ns1" ≠ scheduleNameOf "test-project" "acme" "ns2" :=
  C3_schedule_naming ⟨[], []⟩ ⟨["x"], []⟩ "test-project" "acme" "ns1" "ns2" "@every 5m"
    (by decide)

/-- C4: running the Activate body twice for the same project, target and
namespace, starting from a state in which none of the involved identities
exist, persists the schedule identity exactly once (the second create hits
already-exists at the backend, is absorbed, and leaves the schedule list
unchanged) and persists two backup resources, one per invocation, because
the backup identities embed the distinct timestamps. -/
theorem C4_activate_idempotent (p t n t1 t2 : String) (s0 : BackendState)
    (hts : t1 ≠ t2)
    (hs : containsName s0.schedules (scheduleNameOf p t n) = false)
    (hb1 : containsName s0.backups (backupNameOf p t n t1) = false)
    (hb2 : containsName s0.backups (backupNameOf p t n t2) = false) :
    ((activateBody (activateBody s0 p t n t1).1 p t n t2).1).schedules =
      scheduleNameOf p t n :: s0.schedules ∧
    ((activateBody (activateBody s0 p t n t1).1 p t n t2).1).backups =
      backupNameOf p t n t2 :: backupNameOf p t n t1 :: s0.backups ∧
    (clientCreateSchedule (activateBody s0 p t n t1).1 (scheduleNameOf p t n)).2 = true ∧
    ((activateBody (activateBody s0 p t n t1).1 p t n t2).1).schedules =
      ((activateBody s0 p t n t1).1).schedules := by
  have hbneq : backupNameOf p t n t1 ≠ backupNameOf p t n t2 := by
    intro heq
    simp only [backupNameOf] at heq
    exact hts (string_append_cancel_left _ t1 t2 heq)
  have hstep1 : (activateBody s0 p t n t1).1 =
      ⟨scheduleNameOf p t n :: s0.schedules, backupNameOf p t n t1 :: s0.backups⟩ := by
    unfold activateBody createVeleroSchedule createVeleroBackup clientGetSchedule
      clientCreateSchedule clientCreateBackup
    simp [hs, hb1]
  have hc : containsName (scheduleNameOf p t n :: s0.schedules) (scheduleNameOf p t n) = true := by
    simp [containsName]
  have hcb2 : containsName (backupNameOf p t n t1 :: s0.backups) (backupNameOf p t n t2) = false := by
    simp only [containsName, List.any_cons, Bool.or_eq_false_iff]
    exact ⟨beq_eq_false_iff_ne.mpr hbneq, by simpa [containsName] using hb2⟩
  have hstep2 : (activateBody (activateBody s0 p t n t1).1 p t n t2).1 =
      ⟨scheduleNameOf p t n :: s0.schedules,
        backupNameOf p t n t2 :: backupNameOf p t n t1 :: s0.backups⟩ := by
    rw [hstep1]
    unfold activateBody createVeleroSchedule createVeleroBackup clientGetSchedule
      clientCreateSchedule clientCreateBackup
    simp [hc, hcb2]
  refine ⟨by rw [hstep2], by rw [hstep2], ?_, by rw [hstep2, hstep1]⟩
  rw [hstep1]
  unfold clientCreateSchedule
  simp [hc]

/-- C4 witness. -/
theorem C4_activate_idempotent_witness :
    ((activateBody
        (activateBody ⟨[], []⟩ "test-project" "acme" "ns1" "20240101000000").1
        "test-project" "acme" "ns1" "20240102000000").1).schedules =
      [scheduleNameOf "test-project" "acme" "ns1"] ∧
    ((activateBody
        (activateBody ⟨[], []⟩ "test-project" "acme" "ns1" "20240101000000").1
        "test-project" "acme" "ns1" "20240102000000").1).backups =
      [backupNameOf "test-project" "acme" "ns1" "20240102000000",
        backupNameOf "test-project" "acme" "ns1" "20240101000000"] ∧
    (clientCreateSchedule (activateBody ⟨[], []⟩ "test-project" "acme" "ns1" "20240101000000").1
        (scheduleNameOf "test-project" "acme" "ns1")).2 = true ∧
    ((activateBody
        (activateBody ⟨[], []⟩ "test-project" "acme" "ns1" "20240101000000").1
        "test-project" "acme" "ns1" "20240102000000").1).schedules =
      ((activateBody ⟨[], []⟩ "test-project" "acme" "ns1" "20240101000000").1).schedules :=
  C4_activate_idempotent "test-project" "acme" "ns1" "20240101000000" "20240102000000"
    ⟨[], []⟩ (by decide) rfl rfl rfl

/-- When the operation is one of the three handled kinds and its mandatory
decodes succeeded, the decode switch yields a decoded namespace pair. -/
theorem decodePhase_ok_of_mandatory (req : AdmissionRequest)
    (hop : req.operation = "CREATE" ∨ req.operation = "UPDATE" ∨ req.operation = "DELETE")
    (hdec : mandatoryDecodesOk req = true) :
    ∃ nss, decodePhase req = Except.ok nss := by
  rcases hop with h | h | h
  · cases hobj : req.objectDecode with
    | error e => simp [mandatoryDecodesOk, h, hobj, Except.toBool] at hdec
    | ok ns => exact ⟨(ns, zeroNamespace), by simp [decodePhase, h, hobj]⟩
  · cases hobj : req.objectDecode with
    | error e => simp [mandatoryDecodesOk, h, hobj, Except.toBool] at hdec
    | ok ns =>
      cases hold : req.oldObjectDecode with
      | error e => simp [mandatoryDecodesOk, h, hobj, hold, Except.toBool] at hdec
      | ok oldNs => exact ⟨(ns, oldNs), by simp [decodePhase, h, hobj, hold]⟩
  · cases hold : req.oldObjectDecode with
    | error e => simp [mandatoryDecodesOk, h, hold, Except.toBool] at hdec
    | ok oldNs => exact ⟨(zeroNamespace, oldNs), by simp [decodePhase, h, hold]⟩

/-- C7: whenever a mandatory decode fails (new object for Create/Update, old
object for Update/Delete), the whole request aborts with HTTP 400, the
backend state is untouched and no resource-client call is issued — the
failure never falls through to a NoOp intent. -/
theorem C7_mandatory_decode (req : AdmissionRequest) (clusterConfigOk clientOk : Bool)
    (s : BackendState) (timestamp : String)
    (hfail : mandatoryDecodesOk req = false) :
    ∃ msg, ServerNamespaceBackup req clusterConfigOk clientOk s timestamp =
      (HandlerResult.badRequest msg, s, []) := by
  by_cases h1 : req.operation = "CREATE"
  · cases hobj : req.objectDecode with
    | error e =>
      exact ⟨"Could not parse namespace: " ++ e,
        by simp [ServerNamespaceBackup, decodePhase, h1, hobj]⟩
    | ok ns =>
      exact absurd hfail (by simp [mandatoryDecodesOk, h1, hobj, Except.toBool])
  · by_cases h2 : req.operation = "UPDATE"
    · cases hobj : req.objectDecode with
      | error e =>
        exact ⟨"Could not parse namespace: " ++ e,
          by simp [ServerNamespaceBackup, decodePhase, h1, h2, hobj]⟩
      | ok ns =>
        cases hold : req.oldObjectDecode with
        | error e =>
          exact ⟨"Could not parse old namespace: " ++ e,
            by simp [ServerNamespaceBackup, decodePhase, h1, h2, hobj, hold]⟩
        | ok oldNs =>
          exact absurd hfail (by simp [mandatoryDecodesOk, h1, h2, hobj, hold, Except.toBool])
    · by_cases h3 : req.operation = "DELETE"
      · cases hold : req.oldObjectDecode with
        | error e =>
          exact ⟨"Could not parse old namespace: " ++ e,
            by simp [ServerNamespaceBackup, decodePhase, h1, h2, h3, hold]⟩
        | ok oldNs =>
          exact absurd hfail (by simp [mandatoryDecodesOk, h1, h2, h3, hold, Except.toBool])
      · exact absurd hfail (by simp [mandatoryDecodesOk, h1, h2, h3])

/-- C7 witness. -/
theorem C7_mandatory_decode_witness :
    ∃ msg, ServerNamespaceBackup
        ⟨"DELETE", "uid-7", Except.ok zeroNamespace, Except.error "bad json"⟩
        true true ⟨[], []⟩ "ts" =
      (HandlerResult.badRequest msg, ⟨[], []⟩, []) :=
  C7_mandatory_decode ⟨"DELETE", "uid-7", Except.ok zeroNamespace, Except.error "bad json"⟩
    true true ⟨[], []⟩ "ts" rfl

/-- C9: for any Create, Update or Delete request whose mandatory decodes
succeeded, the handler builds the in-cluster config and the dynamic client
before reading any label, so a config or client construction failure answers
the request with HTTP 500 and issues no resource-client call — even for a
request whose intent would be NoOp. -/
theorem C9_client_before_labels (req : AdmissionRequest) (cfgOk clientOk : Bool)
    (s : BackendState) (timestamp : String)
    (hop : req.operation = "CREATE" ∨ req.operation = "UPDATE" ∨ req.operation = "DELETE")
    (hdec : mandatoryDecodesOk req = true)
    (hfail : cfgOk = false ∨ clientOk = false) :
    ∃ msg, ServerNamespaceBackup req cfgOk clientOk s timestamp =
      (HandlerResult.serverError msg, s, []) := by
  obtain ⟨nss, hdp⟩ := decodePhase_ok_of_mandatory req hop hdec
  rcases hfail with hf | hf
  · subst hf
    exact ⟨"Could not get in-cluster config", by simp [ServerNamespaceBackup, hdp]⟩
  · subst hf
    cases cfgOk
    · exact ⟨"Could not get in-cluster config", by simp [ServerNamespaceBackup, hdp]⟩
    · exact ⟨"Could not create clientset", by simp [ServerNamespaceBackup, hdp]⟩

/-- C9 witness: a Create request with no labels (a NoOp intent) is still
answered with a server error when config construction fails. -/
theorem C9_client_before_labels_witness :
    ∃ msg, ServerNamespaceBackup
        ⟨"CREATE", "uid-9", Except.ok ⟨"ns1", []⟩, Except.ok zeroNamespace⟩
        false true ⟨[], []⟩ "ts" =
      (HandlerResult.serverError msg, ⟨[], []⟩, []) :=
  C9_client_before_labels ⟨"CREATE", "uid-9", Except.ok ⟨"ns1", []⟩, Except.ok zeroNamespace⟩
    false true ⟨[], []⟩ "ts" (Or.inl rfl) rfl (Or.inl rfl)

/-- C10: a Delete request never reads the new object: the handler's outcome
is independent of the new object's decode result, and an undecodable new
object does not fail a Delete whose old object decodes (the request is still
answered allowed); the Delete intent depends only on the old object. -/
theorem C10_delete_ignores_new_object (uid timestamp : String)
    (obj obj' old : Except String K8sNamespace) (cfgOk clientOk : Bool) (s : BackendState) :
    ServerNamespaceBackup ⟨"DELETE", uid, obj, old⟩ cfgOk clientOk s timestamp =
      ServerNamespaceBackup ⟨"DELETE", uid, obj', old⟩ cfgOk clientOk s timestamp ∧
    (∀ e oldNs, old = Except.ok oldNs →
      (ServerNamespaceBackup ⟨"DELETE", uid, Except.error e, old⟩ true true s timestamp).1 =
        HandlerResult.allowed uid) := by
  constructor
  · rfl
  · intro e oldNs hold
    subst hold
    rfl

/-- C10 witness. -/
theorem C10_delete_ignores_new_object_witness :
    (ServerNamespaceBackup
        ⟨"DELETE", "uid-10", Except.error "garbage", Except.ok ⟨"ns1", [("a", "b")]⟩⟩
        true true ⟨[], []⟩ "ts").1 = HandlerResult.allowed "uid-10" :=
  (C10_delete_ignores_new_object "uid-10" "ts" (Except.error "garbage") (Except.ok zeroNamespace)
    (Except.ok ⟨"ns1", [("a", "b")]⟩) true true ⟨[], []⟩).2 "garbage" ⟨"ns1", [("a", "b")]⟩ rfl

/-- C6 counterexample: for an unrecognized operation kind (here CONNECT) the
handler returns from the decode switch's default case without writing any
admission response, so the claimed allowed=true response is not produced. -/
theorem C6_counterexample :
    (ServerNamespaceBackup
        ⟨"CONNECT", "uid-6", Except.ok zeroNamespace, Except.ok zeroNamespace⟩
        true true ⟨[], []⟩ "ts").1 = HandlerResult.noResponse ∧
    HandlerResult.noResponse ≠ HandlerResult.allowed "uid-6" :=
  ⟨rfl, by decide⟩

/-- C6 amended: for Create, Update and Delete requests whose mandatory
decodes succeeded and whose config and client were constructed, the
admission response is allowed=true echoing the request UID, whatever the
backend state — orchestration outcomes never change the decision; for any
unrecognized operation kind the handler returns without writing a response. -/
theorem C6_allowed_response (req : AdmissionRequest) (s : BackendState) (timestamp : String) :
    ((req.operation = "CREATE" ∨ req.operation = "UPDATE" ∨ req.operation = "DELETE") →
      mandatoryDecodesOk req = true →
      (ServerNamespaceBackup req true true s timestamp).1 = HandlerResult.allowed req.uid) ∧
    (req.operation ≠ "CREATE" → req.operation ≠ "UPDATE" → req.operation ≠ "DELETE" →
      (ServerNamespaceBackup req true true s timestamp).1 = HandlerResult.noResponse) := by
  constructor
  · intro hop hdec
    obtain ⟨nss, hdp⟩ := decodePhase_ok_of_mandatory req hop hdec
    simp [ServerNamespaceBackup, hdp]
  · intro h1 h2 h3
    have hdp : decodePhase req = Except.error HandlerResult.noResponse := by
      simp [decodePhase, h1, h2, h3]
    simp [ServerNamespaceBackup, hdp]

/-- C6 witness. -/
theorem C6_allowed_response_witness :
    (ServerNamespaceBackup ⟨"CREATE", "u6", Except.ok ⟨"ns1", []⟩, Except.ok zeroNamespace⟩
        true true ⟨[], []⟩ "ts").1 = HandlerResult.allowed "u6" ∧
    (ServerNamespaceBackup ⟨"CONNECT", "u6b", Except.ok zeroNamespace, Except.ok zeroNamespace⟩
        true true ⟨[], []⟩ "ts").1 = HandlerResult.noResponse :=
  ⟨(C6_allowed_response ⟨"CREATE", "u6", Except.ok ⟨"ns1", []⟩, Except.ok zeroNamespace⟩
      ⟨[], []⟩ "ts").1 (Or.inl rfl) rfl,
    (C6_allowed_response ⟨"CONNECT", "u6b", Except.ok zeroNamespace, Except.ok zeroNamespace⟩
      ⟨[], []⟩ "ts").2 (by decide) (by decide) (by decide)⟩

/-- C1 counterexample: an Update whose old labels carry a runtime value that
is present, non-empty and different from "target" (old predicate false) and
whose new labels satisfy the predicate yields NoOp in the handler, where the
section 4.2 table demands Activate for the false-to-true edge. -/
theorem C1_counterexample :
    handlerIntent "UPDATE"
        [("namespace.oam.dev/target", "acme"), ("usage.oam.dev/runtime", "dev")]
        [("namespace.oam.dev/target", "acme"), ("usage.oam.dev/runtime", "target")] =
      TransitionIntent.NoOp ∧
    isTarget [("namespace.oam.dev/target", "acme"), ("usage.oam.dev/runtime", "dev")] = false ∧
    isTarget [("namespace.oam.dev/target", "acme"), ("usage.oam.dev/runtime", "target")] = true ∧
    decideSpec "UPDATE" false true = TransitionIntent.Activate := by decide

/-- C1 amended: the handler's transition intent matches the section 4.2
table for Create, Delete and unrecognized operations; for Update it yields
Deactivate exactly on the true-to-false edge and NoOp on the unchanged
pairs, but it yields Activate only when the new predicate is true and the
old labels are falsy in the narrow sense — target label absent or empty, or
runtime label absent or empty — so an old runtime value that is present,
non-empty and different from "target" suppresses the Activate edge. -/
theorem C1_transition_table (op : String) (oldL newL : List (String × String)) :
    (op ≠ "UPDATE" →
      handlerIntent op oldL newL = decideSpec op (isTarget oldL) (isTarget newL)) ∧
    (op = "UPDATE" →
      handlerIntent op oldL newL =
        (if isTarget newL && oldLabelsFalsy oldL then TransitionIntent.Activate
          else if isTarget oldL && !isTarget newL then TransitionIntent.Deactivate
          else TransitionIntent.NoOp)) := by
  rcases hT : lookupLabel newL "namespace.oam.dev/target" with ⟨tv, tk⟩
  rcases hR : lookupLabel newL "usage.oam.dev/runtime" with ⟨rv, rk⟩
  rcases hOT : lookupLabel oldL "namespace.oam.dev/target" with ⟨otv, otk⟩
  rcases hOR : lookupLabel oldL "usage.oam.dev/runtime" with ⟨orv, ork⟩
  constructor
  · intro hop
    by_cases h1 : op = "CREATE"
    · subst h1
      simp [handlerIntent, decideSpec, isTarget, hT, hR]
    · by_cases h3 : op = "DELETE"
      · subst h3
        simp [handlerIntent, decideSpec, isTarget, hOT, hOR]
      · simp [handlerIntent, decideSpec, h1, h3, hop]
  · intro hop
    subst hop
    simp only [handlerIntent, oldLabelsFalsy, isTarget, hT, hR, hOT, hOR, bne]
    generalize (tv == ("" : String)) = a
    generalize (rv == ("target" : String)) = b
    generalize (otv == ("" : String)) = c
    generalize (orv == ("target" : String)) = d
    generalize (orv == ("" : String)) = e
    clear hT hR hOT hOR
    revert tk rk otk ork a b c d e
    decide

/-- C1 witness. -/
theorem C1_transition_table_witness :
    handlerIntent "DELETE"
        [("namespace.oam.dev/target", "acme"), ("usage.oam.dev/runtime", "target")] [] =
      decideSpec "DELETE"
        (isTarget [("namespace.oam.dev/target", "acme"), ("usage.oam.dev/runtime", "target")])
        (isTarget []) ∧
    handlerIntent "UPDATE" []
        [("namespace.oam.dev/target", "acme"), ("usage.oam.dev/runtime", "target")] =
      TransitionIntent.Activate :=
  ⟨(C1_transition_table "DELETE"
      [("namespace.oam.dev/target", "acme"), ("usage.oam.dev/runtime", "target")] []).1
      (by decide),
    (C1_transition_table "UPDATE" []
      [("namespace.oam.dev/target", "acme"), ("usage.oam.dev/runtime", "target")]).2 rfl⟩

end NamespaceWebhook
